import Mathlib

/-!
Verification of `src/mts/dataset/load_data.py` (MTS_BELARUS repository).

The file shallowly embeds the data model and the four loader variants
(`AlfaLoader`, `BpsLoader`, `InstallmentLoader`, `LizingLoader`).  A pandas
`DataFrame` is a list of column labels together with a list of rows of cells;
reading a file is a lookup in an explicit file-system map, and every fallible
pandas operation returns `Except String`.  The `try/except` boundary of each
entry point is embedded by catching the `Except` error and producing `none`
together with the printed log lines.
-/

set_option autoImplicit false

/-- A single cell of a tabular structure: free text, a 64-bit style integer,
or a parsed calendar date. -/
inductive Cell where
  | str (s : String)
  | int (n : Int)
  | date (y m d : Nat)
deriving DecidableEq

/-- An in-memory tabular structure: ordered column labels and rows of cells. -/
structure DataFrame where
  cols : List String
  rows : List (List Cell)
deriving DecidableEq

def defaultCell : Cell := Cell.str ""

/-- `df.rename(columns=mapping)` applied to the column labels: each label that
is a key of the mapping is replaced by its image, all others are unchanged.
Renaming never fails. -/
def renameCols (mapping : List (String × String)) (cs : List String) : List String :=
  cs.map (fun c =>
    match mapping.lookup c with
    | some c2 => c2
    | none => c)

/-- `df.rename(columns=mapping)`: rows are untouched. -/
def rename (mapping : List (String × String)) (df : DataFrame) : DataFrame :=
  { cols := renameCols mapping df.cols, rows := df.rows }

/-- Index of the first label satisfying `p`, if any. -/
def findIdx (p : String → Bool) : List String → Option Nat
  | [] => none
  | c :: cs => if p c then some 0 else (findIdx p cs).map (· + 1)

/-- Pick the cells of a row at the given column indices (out-of-range reads
yield the default cell; on well-formed frames they never happen). -/
def rowSelect (idxs : List Nat) (r : List Cell) : List Cell :=
  idxs.map (fun i => r.getD i defaultCell)

/-- Resolve each wanted label to its column index; a missing label is a
`KeyError`, exactly as pandas label selection raises. -/
def colIndices (cs : List String) : List String → Except String (List Nat)
  | [] => .ok []
  | c :: rest =>
    match findIdx (fun x => x == c) cs with
    | none => .error ("KeyError: " ++ c)
    | some i =>
      match colIndices cs rest with
      | .error e => .error e
      | .ok is => .ok (i :: is)

/-- `df.loc[:, wanted]` / `df[wanted]`: project to the wanted columns in the
wanted order, keeping every row in its original position. -/
def project (wanted : List String) (df : DataFrame) : Except String DataFrame :=
  match colIndices df.cols wanted with
  | .error e => .error e
  | .ok idxs => .ok { cols := wanted, rows := df.rows.map (rowSelect idxs) }

deriving instance DecidableEq for Except

/-- A stored file: an excel workbook (already parsed into named sheets) or a
delimited text file with raw content. -/
inductive FileData where
  | excel (sheets : List (String × DataFrame))
  | text (content : String)
deriving DecidableEq

/-- The file system: a map from path to file. -/
abbrev FileSystem := List (String × FileData)

/-- The loader configuration `self.paths`: a map from source key to path. -/
abbrev Config := List (String × String)

/-- `self.paths[key]`: a missing key raises `KeyError` (inside the guarded
region of every entry point). -/
def lookupKey (cfg : Config) (k : String) : Except String String :=
  match cfg.lookup k with
  | some v => .ok v
  | none => .error ("KeyError: " ++ k)

/-- `pd.read_excel(path, sheet_name=sheet, header=0)`: fails when the path is
absent, the file is not a workbook, or the sheet name is missing. -/
def read_excel (fs : FileSystem) (path sheet : String) : Except String DataFrame :=
  match fs.lookup path with
  | none => .error ("FileNotFoundError: " ++ path)
  | some (FileData.text _) => .error ("ValueError: not an excel file: " ++ path)
  | some (FileData.excel sheets) =>
    match sheets.lookup sheet with
    | none => .error ("ValueError: worksheet " ++ sheet ++ " not found")
    | some df => .ok df

/-- Split a character list at every occurrence of `sep`. -/
def splitOnChar (sep : Char) : List Char → List (List Char)
  | [] => [[]]
  | c :: cs =>
    if c = sep then [] :: splitOnChar sep cs
    else
      match splitOnChar sep cs with
      | [] => [[c]]
      | w :: ws => (c :: w) :: ws

def digitVal (c : Char) : Option Nat :=
  if c.isDigit then some (c.toNat - 48) else none

/-- Parse a nonempty run of decimal digits. -/
def parseNat (s : List Char) : Option Nat :=
  if s.isEmpty then none
  else
    s.foldl (fun acc c =>
      match acc, digitVal c with
      | some n, some d => some (n * 10 + d)
      | _, _ => none) (some 0)

/-- Parse an optionally negated decimal integer literal. -/
def parseInt (s : List Char) : Option Int :=
  match s with
  | [] => none
  | c :: rest =>
    if c = '-' then (parseNat rest).map (fun n => -(n : Int))
    else (parseNat (c :: rest)).map (fun n => (n : Int))

/-- Parse an ISO `YYYY-MM-DD` date string. -/
def parseDate (s : String) : Option (Nat × Nat × Nat) :=
  match splitOnChar '-' s.data with
  | [y, m, d] =>
    match parseNat y, parseNat m, parseNat d with
    | some yn, some mn, some dn =>
      if 1 ≤ mn ∧ mn ≤ 12 ∧ 1 ≤ dn ∧ dn ≤ 31 then some (yn, mn, dn) else none
    | _, _, _ => none
  | _ => none

/-- Membership of a label in `usecols = ['TEL', 'APLCTN_DT']`. -/
def isUsecol (c : String) : Bool := c == "TEL" || c == "APLCTN_DT"

def int64Min : Int := -(2 ^ 63)
def int64Max : Int := 2 ^ 63 - 1

/-- `dtype={'TEL': 'int64'}`: coerce a raw field to a 64-bit integer value,
failing on non-numeric text or out-of-range values. -/
def coerceTel (s : String) : Except String Cell :=
  match parseInt s.data with
  | none => .error ("ValueError: invalid literal for int64: " ++ s)
  | some n =>
    if int64Min ≤ n ∧ n ≤ int64Max then .ok (Cell.int n)
    else .error ("OverflowError: int64 out of range: " ++ s)

/-- One cell of the BPS raw frame: `TEL` is coerced to `int64`; `APLCTN_DT`
becomes a parsed date when the whole column parses (`parse_dates`), otherwise
the textual value is kept. -/
def bpsCell (dateOk : Bool) (name fld : String) : Except String Cell :=
  if name == "TEL" then coerceTel fld
  else if dateOk then
    match parseDate fld with
    | some (y, m, d) => .ok (Cell.date y m d)
    | none => .ok (Cell.str fld)
  else .ok (Cell.str fld)

/-- Map a fallible function over a list, stopping at the first error. -/
def exceptMap {α β : Type} (f : α → Except String β) : List α → Except String (List β)
  | [] => .ok []
  | a :: as =>
    match f a with
    | .error e => .error e
    | .ok b =>
      match exceptMap f as with
      | .error e => .error e
      | .ok bs => .ok (b :: bs)

/-- The physical lines of a delimited text file (blank lines skipped, as by
`skip_blank_lines`). -/
def csvLines (content : String) : List (List Char) :=
  (splitOnChar '\n' content.data).filter (fun l => !l.isEmpty)

/-- Split one line at every semicolon into field strings (`sep=';'`). -/
def fieldsOf (line : List Char) : List String :=
  (splitOnChar ';' line).map (fun w => String.mk w)

/-- The fields of a line at the kept column indices. -/
def keptFields (keepIdx : List Nat) (line : List Char) : List String :=
  keepIdx.map (fun i => (fieldsOf line).getD i "")

/-- The file-order indices of the header columns kept by
`usecols=['TEL','APLCTN_DT']`. -/
def bpsKeepIdx (header : List String) : List Nat :=
  (header.enum.filter (fun p => isUsecol p.2)).map (fun p => p.1)

/-- The labels of the kept columns, in file order (pandas keeps the file's
column order under `usecols`). -/
def bpsKeptNames (header : List String) : List String :=
  (header.enum.filter (fun p => isUsecol p.2)).map (fun p => p.2)

/-- `parse_dates=['APLCTN_DT']` succeeds as a column exactly when every value
of that column parses as a date; otherwise the column stays textual. -/
def bpsDateOk (header : List String) (dataLines : List (List Char)) : Bool :=
  dataLines.all (fun line =>
    match findIdx (fun x => x == "APLCTN_DT") (bpsKeptNames header) with
    | some j => (parseDate ((keptFields (bpsKeepIdx header) line).getD j "")).isSome
    | none => true)

/-- Parse every data line of the BPS file into a row of typed cells. -/
def bpsParseRows (header : List String) (dataLines : List (List Char)) :
    Except String (List (List Cell)) :=
  exceptMap (fun line =>
    exceptMap (fun p => bpsCell (bpsDateOk header dataLines) p.1 p.2)
      ((bpsKeptNames header).zip (keptFields (bpsKeepIdx header) line))) dataLines

/-- `BpsLoader._read_data`: `pd.read_csv(path, sep=';',
usecols=['TEL','APLCTN_DT'], dtype={'TEL':'int64','APLCTN_DT':'string'},
parse_dates=['APLCTN_DT'], low_memory=False)`.  The `PD` column documented in
the source docstring is not in `usecols`, hence never read. -/
def bps_read_data (fs : FileSystem) (path : String) : Except String DataFrame :=
  match fs.lookup path with
  | none => .error ("FileNotFoundError: " ++ path)
  | some (FileData.excel _) => .error ("ParserError: not a delimited text file: " ++ path)
  | some (FileData.text content) =>
    match csvLines content with
    | [] => .error "EmptyDataError: No columns to parse from file"
    | headerLine :: dataLines =>
      if "TEL" ∈ fieldsOf headerLine ∧ "APLCTN_DT" ∈ fieldsOf headerLine then
        match bpsParseRows (fieldsOf headerLine) dataLines with
        | .error e => .error e
        | .ok rows => .ok { cols := bpsKeptNames (fieldsOf headerLine), rows := rows }
      else .error "ValueError: Usecols do not match columns, columns expected but not found"

/-! ## The clean steps of the four variants -/

def alfaRenameMap : List (String × String) :=
  [("Phone", "phone_number"), ("Date", "date"), ("Identification number", "identify")]

def alfaCanonCols : List String := ["date", "phone_number", "identify"]

/-- `AlfaLoader._clean_data`: rename `Phone→phone_number`, `Date→date`,
`Identification number→identify`, then `df.loc[:, ['date','phone_number','identify']]`. -/
def alfa_clean_data (df : DataFrame) : Except String DataFrame :=
  project alfaCanonCols (rename alfaRenameMap df)

def bpsRenameMap : List (String × String) :=
  [("TEL", "phone_number"), ("APLCTN_DT", "date")]

def canonCols2 : List String := ["date", "phone_number"]

/-- `BpsLoader._clean_data`: copy, rename `TEL→phone_number`,
`APLCTN_DT→date` in place, then select `['date','phone_number']`. -/
def bps_clean_data (df : DataFrame) : Except String DataFrame :=
  project canonCols2 (rename bpsRenameMap df)

def installmentRenameMap : List (String × String) :=
  [("Действующий абонентский номер", "phone_number"), ("Дата продажи", "date")]

/-- `InstallmentLoader._clean_data`: rename the two Russian labels, then
`df.loc[:, ['date','phone_number']]`. -/
def installment_clean_data (df : DataFrame) : Except String DataFrame :=
  project canonCols2 (rename installmentRenameMap df)

def lizingRenameMap : List (String × String) :=
  [("Мобильный телефон", "phone_number"), ("Дата заключения", "date")]

/-- `LizingLoader._clean_data`: rename the two Russian labels, then
`df.loc[:, ['date','phone_number']]`. -/
def lizing_clean_data (df : DataFrame) : Except String DataFrame :=
  project canonCols2 (rename lizingRenameMap df)

/-- The column restriction `new_data[['Действующий абонентский номер',
'Дата продажи']]` applied inside `load_installment_data` before cleaning. -/
def installmentReadCols : List String :=
  ["Действующий абонентский номер", "Дата продажи"]

/-! ## The entry points, with their printed log -/

/-- `print(f"Error while loading or cleaning Alfa data: {e}")`. -/
def alfaErrLine (e : String) : String :=
  "Error while loading or cleaning Alfa data: " ++ e

/-- `print("An error occurred during data processing:", e)` — shared verbatim
by the BPS, Installment and Lizing entry points. -/
def genericErrLine (e : String) : String :=
  "An error occurred during data processing: " ++ e

/-- `AlfaLoader.load_alfa_data`: read `paths['alfa']` sheet `Sheet1`, clean,
return; any exception is caught, logged, and turned into `None`.  The second
component is the list of printed lines. -/
def load_alfa_data (fs : FileSystem) (cfg : Config) : Option DataFrame × List String :=
  match lookupKey cfg "alfa" with
  | .error e => (none, ["Loading Alfa data...", alfaErrLine e])
  | .ok path =>
    match read_excel fs path "Sheet1" with
    | .error e => (none, ["Loading Alfa data...", alfaErrLine e])
    | .ok df =>
      match alfa_clean_data df with
      | .error e =>
        (none, ["Loading Alfa data...", "Alfa data loaded successfully.",
                "Cleaning Alfa data...", alfaErrLine e])
      | .ok out =>
        (some out, ["Loading Alfa data...", "Alfa data loaded successfully.",
                    "Cleaning Alfa data...", "Alfa data cleaned successfully."])

/-- `BpsLoader.load_bps_data`: read `paths['bps']` via `_read_data`, clean,
return a copy; any exception is caught, logged, and turned into `None`. -/
def load_bps_data (fs : FileSystem) (cfg : Config) : Option DataFrame × List String :=
  match lookupKey cfg "bps" with
  | .error e => (none, ["Loading BPS data...", genericErrLine e])
  | .ok path =>
    match bps_read_data fs path with
    | .error e => (none, ["Loading BPS data...", genericErrLine e])
    | .ok df =>
      match bps_clean_data df with
      | .error e =>
        (none, ["Loading BPS data...", "Data loaded successfully.",
                "Cleaning BPS data...", genericErrLine e])
      | .ok out =>
        (some out, ["Loading BPS data...", "Data loaded successfully.",
                    "Cleaning BPS data...", "Data cleaned successfully."])

/-- `InstallmentLoader.load_installment_data`: read `paths['installment']`
sheet `Лист1`, restrict to the two Russian labels, clean, return; any
exception is caught, logged, and turned into `None`.  The `"Cleaning Lizing
data..."` progress line is the source's own copy-paste text. -/
def load_installment_data (fs : FileSystem) (cfg : Config) : Option DataFrame × List String :=
  match lookupKey cfg "installment" with
  | .error e => (none, ["Loading Installment data...", genericErrLine e])
  | .ok path =>
    match read_excel fs path "Лист1" with
    | .error e => (none, ["Loading Installment data...", genericErrLine e])
    | .ok df0 =>
      match project installmentReadCols df0 with
      | .error e => (none, ["Loading Installment data...", genericErrLine e])
      | .ok df =>
        match installment_clean_data df with
        | .error e =>
          (none, ["Loading Installment data...", "Data loaded successfully.",
                  "Cleaning Lizing data...", genericErrLine e])
        | .ok out =>
          (some out, ["Loading Installment data...", "Data loaded successfully.",
                      "Cleaning Lizing data...", "Data cleaned successfully."])

/-- `LizingLoader.load_lizing_data`: read `paths['lizing']` sheet `Sheet1`,
clean, return; any exception is caught, logged, and turned into `None`. -/
def load_lizing_data (fs : FileSystem) (cfg : Config) : Option DataFrame × List String :=
  match lookupKey cfg "lizing" with
  | .error e => (none, ["Loading Lizing data...", genericErrLine e])
  | .ok path =>
    match read_excel fs path "Sheet1" with
    | .error e => (none, ["Loading Lizing data...", genericErrLine e])
    | .ok df =>
      match lizing_clean_data df with
      | .error e =>
        (none, ["Loading Lizing data...", "Data loaded successfully.",
                "Cleaning Lizing data...", genericErrLine e])
      | .ok out =>
        (some out, ["Loading Lizing data...", "Data loaded successfully.",
                    "Cleaning Lizing data...", "Data cleaned successfully."])

/-! ## The read→clean pipelines, without the logging -/

def exceptToOption {α : Type} : Except String α → Option α
  | .ok a => some a
  | .error _ => none

/-- The fallible pipeline of `load_alfa_data` before the `except` clause. -/
def alfa_pipeline (fs : FileSystem) (cfg : Config) : Except String DataFrame :=
  match lookupKey cfg "alfa" with
  | .error e => .error e
  | .ok path =>
    match read_excel fs path "Sheet1" with
    | .error e => .error e
    | .ok df => alfa_clean_data df

/-- The fallible pipeline of `load_bps_data` before the `except` clause. -/
def bps_pipeline (fs : FileSystem) (cfg : Config) : Except String DataFrame :=
  match lookupKey cfg "bps" with
  | .error e => .error e
  | .ok path =>
    match bps_read_data fs path with
    | .error e => .error e
    | .ok df => bps_clean_data df

/-- The fallible pipeline of `load_installment_data` before the `except`
clause. -/
def installment_pipeline (fs : FileSystem) (cfg : Config) : Except String DataFrame :=
  match lookupKey cfg "installment" with
  | .error e => .error e
  | .ok path =>
    match read_excel fs path "Лист1" with
    | .error e => .error e
    | .ok df0 =>
      match project installmentReadCols df0 with
      | .error e => .error e
      | .ok df => installment_clean_data df

/-- The fallible pipeline of `load_lizing_data` before the `except` clause. -/
def lizing_pipeline (fs : FileSystem) (cfg : Config) : Except String DataFrame :=
  match lookupKey cfg "lizing" with
  | .error e => .error e
  | .ok path =>
    match read_excel fs path "Sheet1" with
    | .error e => .error e
    | .ok df => lizing_clean_data df

/-! ## Fixtures -/

/-- Alfa fixture sheet: the three required columns plus one unrelated extra. -/
def alfaSheet : DataFrame :=
  { cols := ["Phone", "Date", "Identification number", "Extra"],
    rows := [[Cell.int 375291234567, Cell.str "2024-01-02", Cell.str "AB123", Cell.str "junk"]] }

def instSheet : DataFrame :=
  { cols := ["Действующий абонентский номер", "Дата продажи"],
    rows := [[Cell.str "5550001", Cell.str "2024-02-03"]] }

def lizingSheet : DataFrame :=
  { cols := ["Мобильный телефон", "Дата заключения"],
    rows := [[Cell.str "5550002", Cell.str "2024-03-04"]] }

/-- The BPS fixture file: two columns only, no `PD` column. -/
def bpsFixtureText : String := "TEL;APLCTN_DT\n5551234;2024-01-01"

def fixtureFs : FileSystem :=
  [("alfa.xlsx", FileData.excel [("Sheet1", alfaSheet)]),
   ("b.csv", FileData.text bpsFixtureText),
   ("inst.xlsx", FileData.excel [("Лист1", instSheet)]),
   ("liz.xlsx", FileData.excel [("Sheet1", lizingSheet)])]

def fixtureCfg : Config :=
  [("alfa", "alfa.xlsx"), ("bps", "b.csv"),
   ("installment", "inst.xlsx"), ("lizing", "liz.xlsx")]

/-- The cleaned Alfa fixture: canonical columns only, extra column dropped. -/
def alfaExpected : DataFrame :=
  { cols := ["date", "phone_number", "identify"],
    rows := [[Cell.str "2024-01-02", Cell.int 375291234567, Cell.str "AB123"]] }

/-- The raw BPS fixture frame as produced by `_read_data`. -/
def bpsRaw : DataFrame :=
  { cols := ["TEL", "APLCTN_DT"], rows := [[Cell.int 5551234, Cell.date 2024 1 1]] }

/-- The cleaned BPS fixture. -/
def bpsExpected : DataFrame :=
  { cols := ["date", "phone_number"], rows := [[Cell.date 2024 1 1, Cell.int 5551234]] }

/-- The cleaned Installment fixture. -/
def instExpected : DataFrame :=
  { cols := ["date", "phone_number"], rows := [[Cell.str "2024-02-03", Cell.str "5550001"]] }

/-- The cleaned Lizing fixture. -/
def lizingExpected : DataFrame :=
  { cols := ["date", "phone_number"], rows := [[Cell.str "2024-03-04", Cell.str "5550002"]] }

/-- A sheet that already carries the canonical Alfa labels but none of the
raw source labels. -/
def alfaCanonSheet : DataFrame :=
  { cols := ["date", "phone_number", "identify"], rows := [] }

def alfaCanonFs : FileSystem := [("a.xlsx", FileData.excel [("Sheet1", alfaCanonSheet)])]

def alfaCanonCfg : Config := [("alfa", "a.xlsx")]

/-- A sheet with a single unrelated column. -/
def blankSheet : DataFrame := { cols := ["X"], rows := [] }

def blankFs : FileSystem := [("a.xlsx", FileData.excel [("Sheet1", blankSheet)])]

/-! ### Python object identities (for the defensive-copy behaviour of
`load_bps_data`) -/

/-- A Python heap object: an identity together with the frame value it
currently holds. -/
structure Obj where
  id : Nat
  val : DataFrame
deriving DecidableEq

/-- `BpsLoader._clean_data` at object level, threading a fresh-identity
counter `a`: `df = input_df.copy()` allocates identity `a` holding the same
value; `df.rename(columns=..., inplace=True)` mutates that same object; and
`df = df[selected_columns]` allocates the new object `a + 1`, which is
returned, leaving `a + 2` free. -/
def bps_clean_data_obj (input : Obj) (a : Nat) : Except String (Obj × Nat) :=
  match project canonCols2 (rename bpsRenameMap input.val) with
  | .error e => .error e
  | .ok v => .ok (⟨a + 1, v⟩, a + 2)

/-- `BpsLoader.load_bps_data` at object level: `data_df = self._read_data(...)`
is object `a`, `cleaned_df = self._clean_data(data_df)` is the object returned
by the clean step, and `bps_train_df = cleaned_df.copy()` allocates one more
fresh object holding the same value, which is what the method returns.  The
result is `(cleaned_df, bps_train_df, next free identity)`. -/
def load_bps_data_obj (fs : FileSystem) (cfg : Config) (a : Nat) :
    Option (Obj × Obj × Nat) :=
  match lookupKey cfg "bps" with
  | .error _ => none
  | .ok path =>
    match bps_read_data fs path with
    | .error _ => none
    | .ok raw =>
      match bps_clean_data_obj ⟨a, raw⟩ (a + 1) with
      | .error _ => none
      | .ok (cleaned, a2) => some (cleaned, ⟨a2, cleaned.val⟩, a2 + 1)

/-! ### Substring search (for the wording of the logged error lines) -/

/-- `leadsWith pat l` holds when `pat` is an initial segment of `l`. -/
def leadsWith : List Char → List Char → Bool
  | [], _ => true
  | _ :: _, [] => false
  | p :: ps, c :: cs => p == c && leadsWith ps cs

/-- `containsSeq pat l` holds when `pat` occurs contiguously inside `l`. -/
def containsSeq (pat : List Char) : List Char → Bool
  | [] => leadsWith pat []
  | c :: cs => leadsWith pat (c :: cs) || containsSeq pat cs

/-- The configuration used to compare the BPS and Lizing failure diagnostics:
both point at the same nonexistent file. -/
def c8Cfg : Config := [("bps", "data/file.bin"), ("lizing", "data/file.bin")]

/-- The error line both variants print for that nonexistent file. -/
def c8ErrLine : String :=
  "An error occurred during data processing: FileNotFoundError: data/file.bin"

example : (load_alfa_data fixtureFs fixtureCfg).1 = some alfaExpected := by decide

example :
    (load_bps_data fixtureFs fixtureCfg).1 =
      some { cols := ["date", "phone_number"],
             rows := [[Cell.date 2024 1 1, Cell.int 5551234]] } := by
  decide

example :
    (load_installment_data fixtureFs fixtureCfg).1 =
      some { cols := ["date", "phone_number"],
             rows := [[Cell.str "2024-02-03", Cell.str "5550001"]] } := by
  decide

example :
    (load_lizing_data fixtureFs fixtureCfg).1 =
      some { cols := ["date", "phone_number"],
             rows := [[Cell.str "2024-03-04", Cell.str "5550002"]] } := by
  decide

example : (load_alfa_data [] fixtureCfg).1 = none := by decide

/-! ## Helper lemmas -/

theorem lookupKey_ok {cfg : Config} {k p : String} (h : lookupKey cfg k = .ok p) :
    cfg.lookup k = some p := by
  unfold lookupKey at h
  cases hl : cfg.lookup k with
  | none => rw [hl] at h; cases h
  | some v => rw [hl] at h; cases h; rfl

theorem rowSelect_length (idxs : List Nat) (r : List Cell) :
    (rowSelect idxs r).length = idxs.length := by
  simp [rowSelect]

theorem colIndices_length {cs : List String} :
    ∀ {ws idxs}, colIndices cs ws = .ok idxs → idxs.length = ws.length := by
  intro ws
  induction ws with
  | nil => intro idxs h; cases h; rfl
  | cons w ws ih =>
    intro idxs h
    unfold colIndices at h
    cases hf : findIdx (fun x => x == w) cs with
    | none => rw [hf] at h; cases h
    | some i =>
      rw [hf] at h
      cases hr : colIndices cs ws with
      | error e => rw [hr] at h; cases h
      | ok is => rw [hr] at h; cases h; simp [ih hr]

theorem project_ok_cols {ws : List String} {df out : DataFrame}
    (h : project ws df = .ok out) : out.cols = ws := by
  unfold project at h
  cases hc : colIndices df.cols ws with
  | error e => rw [hc] at h; cases h
  | ok idxs => rw [hc] at h; cases h; rfl

theorem project_ok_rows {ws : List String} {df out : DataFrame}
    (h : project ws df = .ok out) :
    ∃ idxs, idxs.length = ws.length ∧ out.rows = df.rows.map (rowSelect idxs) := by
  unfold project at h
  cases hc : colIndices df.cols ws with
  | error e => rw [hc] at h; cases h
  | ok idxs => rw [hc] at h; cases h; exact ⟨idxs, colIndices_length hc, rfl⟩

theorem load_alfa_fst (fs : FileSystem) (cfg : Config) :
    (load_alfa_data fs cfg).1 = exceptToOption (alfa_pipeline fs cfg) := by
  unfold load_alfa_data alfa_pipeline
  repeat' split
  all_goals simp_all [exceptToOption]

theorem load_bps_fst (fs : FileSystem) (cfg : Config) :
    (load_bps_data fs cfg).1 = exceptToOption (bps_pipeline fs cfg) := by
  unfold load_bps_data bps_pipeline
  repeat' split
  all_goals simp_all [exceptToOption]

theorem load_installment_fst (fs : FileSystem) (cfg : Config) :
    (load_installment_data fs cfg).1 = exceptToOption (installment_pipeline fs cfg) := by
  unfold load_installment_data installment_pipeline
  repeat' split
  all_goals simp_all [exceptToOption]

theorem load_lizing_fst (fs : FileSystem) (cfg : Config) :
    (load_lizing_data fs cfg).1 = exceptToOption (lizing_pipeline fs cfg) := by
  unfold load_lizing_data lizing_pipeline
  repeat' split
  all_goals simp_all [exceptToOption]

theorem load_alfa_some {fs : FileSystem} {cfg : Config} {out : DataFrame}
    (h : (load_alfa_data fs cfg).1 = some out) :
    ∃ path df, cfg.lookup "alfa" = some path ∧ read_excel fs path "Sheet1" = .ok df ∧
      alfa_clean_data df = .ok out := by
  unfold load_alfa_data at h
  split at h
  · simp at h
  · rename_i path hk
    split at h
    · simp at h
    · rename_i df hr
      split at h
      · simp at h
      · rename_i o hc
        simp at h
        exact ⟨path, df, lookupKey_ok hk, hr, h ▸ hc⟩

theorem load_bps_some {fs : FileSystem} {cfg : Config} {out : DataFrame}
    (h : (load_bps_data fs cfg).1 = some out) :
    ∃ path df, cfg.lookup "bps" = some path ∧ bps_read_data fs path = .ok df ∧
      bps_clean_data df = .ok out := by
  unfold load_bps_data at h
  split at h
  · simp at h
  · rename_i path hk
    split at h
    · simp at h
    · rename_i df hr
      split at h
      · simp at h
      · rename_i o hc
        simp at h
        exact ⟨path, df, lookupKey_ok hk, hr, h ▸ hc⟩

theorem load_installment_some {fs : FileSystem} {cfg : Config} {out : DataFrame}
    (h : (load_installment_data fs cfg).1 = some out) :
    ∃ path df0 df, cfg.lookup "installment" = some path ∧
      read_excel fs path "Лист1" = .ok df0 ∧
      project installmentReadCols df0 = .ok df ∧
      installment_clean_data df = .ok out := by
  unfold load_installment_data at h
  split at h
  · simp at h
  · rename_i path hk
    split at h
    · simp at h
    · rename_i df0 hr
      split at h
      · simp at h
      · rename_i df hp
        split at h
        · simp at h
        · rename_i o hc
          simp at h
          exact ⟨path, df0, df, lookupKey_ok hk, hr, hp, h ▸ hc⟩

theorem load_lizing_some {fs : FileSystem} {cfg : Config} {out : DataFrame}
    (h : (load_lizing_data fs cfg).1 = some out) :
    ∃ path df, cfg.lookup "lizing" = some path ∧ read_excel fs path "Sheet1" = .ok df ∧
      lizing_clean_data df = .ok out := by
  unfold load_lizing_data at h
  split at h
  · simp at h
  · rename_i path hk
    split at h
    · simp at h
    · rename_i df hr
      split at h
      · simp at h
      · rename_i o hc
        simp at h
        exact ⟨path, df, lookupKey_ok hk, hr, h ▸ hc⟩

theorem string_data_append (s t : String) : (s ++ t).data = s.data ++ t.data := by
  cases s; cases t; rfl

theorem leadsWith_append {pat s : List Char} (l2 : List Char)
    (h : leadsWith pat s = true) : leadsWith pat (s ++ l2) = true := by
  induction pat generalizing s with
  | nil => rfl
  | cons p ps ih =>
    cases s with
    | nil => cases h
    | cons c cs =>
      simp only [leadsWith, Bool.and_eq_true] at h
      simp only [List.cons_append, leadsWith, Bool.and_eq_true]
      exact ⟨h.1, ih h.2⟩

theorem containsSeq_nil_pat (l : List Char) : containsSeq [] l = true := by
  induction l with
  | nil => rfl
  | cons c cs ih => simp [containsSeq, leadsWith]

theorem containsSeq_append_left {pat l1 : List Char} (l2 : List Char)
    (h : containsSeq pat l1 = true) : containsSeq pat (l1 ++ l2) = true := by
  induction l1 with
  | nil =>
    cases pat with
    | nil => exact containsSeq_nil_pat l2
    | cons p ps => simp [containsSeq, leadsWith] at h
  | cons c cs ih =>
    simp only [containsSeq, Bool.or_eq_true] at h
    simp only [List.cons_append, containsSeq, Bool.or_eq_true]
    rcases h with h | h
    · exact Or.inl (leadsWith_append l2 h)
    · exact Or.inr (ih h)

theorem alfaErrLine_has_Alfa (e : String) :
    containsSeq "Alfa".data (alfaErrLine e).data = true := by
  unfold alfaErrLine
  rw [string_data_append]
  exact containsSeq_append_left e.data (by decide)

theorem findIdx_eq_none_of_not_mem {cs : List String} {c : String} (h : c ∉ cs) :
    findIdx (fun x => x == c) cs = none := by
  induction cs with
  | nil => rfl
  | cons a as ih =>
    have ha : (a == c) = false :=
      beq_eq_false_iff_ne.mpr (fun hac => h (hac ▸ List.mem_cons_self a as))
    have hrec := ih (fun hmem => h (List.mem_cons_of_mem a hmem))
    simp [findIdx, ha, hrec]

theorem colIndices_error_of_missing {cs : List String} {c : String} :
    ∀ {ws : List String}, c ∈ ws → findIdx (fun x => x == c) cs = none →
      ∃ e, colIndices cs ws = .error e := by
  intro ws
  induction ws with
  | nil => intro hc; cases hc
  | cons w ws ih =>
    intro hc hf
    unfold colIndices
    rcases List.mem_cons.mp hc with hw | hw
    · subst hw
      rw [hf]
      exact ⟨_, rfl⟩
    · cases hfw : findIdx (fun x => x == w) cs with
      | none => exact ⟨_, rfl⟩
      | some i =>
        obtain ⟨e, he⟩ := ih hw hf
        exact ⟨e, by rw [he]⟩

theorem mem_renameCols_alfa {cols : List String} {cn : String}
    (h : cn ∈ renameCols alfaRenameMap cols) :
    cn ∈ cols ∨ (cn = "phone_number" ∧ "Phone" ∈ cols) ∨
      (cn = "date" ∧ "Date" ∈ cols) ∨
      (cn = "identify" ∧ "Identification number" ∈ cols) := by
  unfold renameCols at h
  simp only [List.mem_map] at h
  obtain ⟨x, hx, heq⟩ := h
  by_cases h1 : x = "Phone"
  · subst h1
    exact Or.inr (Or.inl ⟨by rw [← heq]; decide, hx⟩)
  · by_cases h2 : x = "Date"
    · subst h2
      exact Or.inr (Or.inr (Or.inl ⟨by rw [← heq]; decide, hx⟩))
    · by_cases h3 : x = "Identification number"
      · subst h3
        exact Or.inr (Or.inr (Or.inr ⟨by rw [← heq]; decide, hx⟩))
      · have e1 : (x == "Phone") = false := beq_eq_false_iff_ne.mpr h1
        have e2 : (x == "Date") = false := beq_eq_false_iff_ne.mpr h2
        have e3 : (x == "Identification number") = false := beq_eq_false_iff_ne.mpr h3
        have hl : List.lookup x alfaRenameMap = none := by
          simp [alfaRenameMap, List.lookup, e1, e2, e3]
        rw [hl] at heq
        have hxc : x = cn := heq
        exact Or.inl (hxc ▸ hx)

theorem alfa_clean_error_of_missing {df : DataFrame} {cn : String}
    (hcn : cn ∈ alfaCanonCols) (hmiss : cn ∉ renameCols alfaRenameMap df.cols) :
    ∃ e, alfa_clean_data df = .error e := by
  have hf := findIdx_eq_none_of_not_mem hmiss
  obtain ⟨e, he⟩ := colIndices_error_of_missing hcn hf
  exact ⟨e, by simp only [alfa_clean_data, project, rename]; rw [he]⟩

theorem rowSelect_two {r : List Cell} (h : r.length = 2) : rowSelect [0, 1] r = r := by
  cases r with
  | nil => simp at h
  | cons a t =>
    cases t with
    | nil => simp at h
    | cons b t2 =>
      cases t2 with
      | nil => rfl
      | cons c t3 => simp at h

theorem rowSelect_three {r : List Cell} (h : r.length = 3) : rowSelect [0, 1, 2] r = r := by
  cases r with
  | nil => simp at h
  | cons a t =>
    cases t with
    | nil => simp at h
    | cons b t2 =>
      cases t2 with
      | nil => simp at h
      | cons c t3 =>
        cases t3 with
        | nil => rfl
        | cons d t4 => simp at h

theorem project_rename_idem {M : List (String × String)} {W : List String}
    {df out : DataFrame}
    (h : project W (rename M df) = .ok out)
    (hren : renameCols M W = W)
    (hsel : ∀ r : List Cell, r.length = W.length → rowSelect (List.range W.length) r = r)
    (hidx : colIndices W W = .ok (List.range W.length)) :
    project W (rename M out) = .ok out := by
  have hcols : out.cols = W := project_ok_cols h
  obtain ⟨idxs, hlen, hrows⟩ := project_ok_rows h
  have hlens : ∀ r ∈ out.rows, r.length = W.length := by
    intro r hr
    rw [hrows] at hr
    simp only [List.mem_map] at hr
    obtain ⟨r0, _, hr0⟩ := hr
    rw [← hr0, rowSelect_length, hlen]
  have h1 : rename M out = out := by
    unfold rename
    rw [hcols, hren, ← hcols]
  have hmap : ∀ rs : List (List Cell), (∀ r ∈ rs, r.length = W.length) →
      rs.map (rowSelect (List.range W.length)) = rs := by
    intro rs
    induction rs with
    | nil => intro _; rfl
    | cons r t ih =>
      intro hlr
      simp only [List.map_cons]
      rw [hsel r (hlr r (List.mem_cons_self r t)),
        ih (fun x hx => hlr x (List.mem_cons_of_mem r hx))]
  rw [h1]
  unfold project
  rw [hcols, hidx]
  show Except.ok ⟨W, out.rows.map (rowSelect (List.range W.length))⟩ = Except.ok out
  rw [hmap out.rows hlens, ← hcols]

theorem bps_clean_data_obj_ok {input : Obj} {a : Nat} {o : Obj} {a2 : Nat}
    (h : bps_clean_data_obj input a = .ok (o, a2)) :
    o.id = a + 1 ∧ a2 = a + 2 ∧ bps_clean_data input.val = .ok o.val := by
  unfold bps_clean_data_obj at h
  split at h
  · cases h
  · rename_i v hv
    cases h
    exact ⟨rfl, rfl, by unfold bps_clean_data; rw [hv]⟩

theorem bps_read_ok_cols {fs : FileSystem} {path : String} {df : DataFrame}
    (h : bps_read_data fs path = .ok df) :
    ∃ header, df.cols = bpsKeptNames header := by
  unfold bps_read_data at h
  split at h
  · cases h
  · cases h
  · rename_i content
    split at h
    · cases h
    · rename_i headerLine dataLines hlines
      split at h
      · split at h
        · cases h
        · rename_i rows hrows
          cases h
          exact ⟨fieldsOf headerLine, rfl⟩
      · cases h

theorem mem_bpsKeptNames {header : List String} {c : String}
    (h : c ∈ bpsKeptNames header) : c = "TEL" ∨ c = "APLCTN_DT" := by
  unfold bpsKeptNames at h
  simp only [List.mem_map, List.mem_filter] at h
  obtain ⟨p, ⟨hp, hu⟩, hc⟩ := h
  subst hc
  simpa [isUsecol] using hu

/-! ## The claims -/

/-- Claim C1: for every provider variant and every input, every failure inside
the entry point is caught at the boundary and converted to the absent-result
signal `none`: the optional result is exactly the caught pipeline outcome
(`none` whenever any stage fails, never a propagated fault), and in particular
a nonexistent path yields `none`. -/
theorem C1_entry_points_catch_all_failures (fs : FileSystem) (cfg : Config) :
    ((load_alfa_data fs cfg).1 = exceptToOption (alfa_pipeline fs cfg) ∧
      ∀ p, cfg.lookup "alfa" = some p → fs.lookup p = none →
        (load_alfa_data fs cfg).1 = none) ∧
    ((load_bps_data fs cfg).1 = exceptToOption (bps_pipeline fs cfg) ∧
      ∀ p, cfg.lookup "bps" = some p → fs.lookup p = none →
        (load_bps_data fs cfg).1 = none) ∧
    ((load_installment_data fs cfg).1 = exceptToOption (installment_pipeline fs cfg) ∧
      ∀ p, cfg.lookup "installment" = some p → fs.lookup p = none →
        (load_installment_data fs cfg).1 = none) ∧
    ((load_lizing_data fs cfg).1 = exceptToOption (lizing_pipeline fs cfg) ∧
      ∀ p, cfg.lookup "lizing" = some p → fs.lookup p = none →
        (load_lizing_data fs cfg).1 = none) := by
  refine ⟨⟨load_alfa_fst fs cfg, ?_⟩, ⟨load_bps_fst fs cfg, ?_⟩,
    ⟨load_installment_fst fs cfg, ?_⟩, ⟨load_lizing_fst fs cfg, ?_⟩⟩
  · intro p hc hf
    rw [load_alfa_fst]
    simp [alfa_pipeline, lookupKey, hc, read_excel, hf, exceptToOption]
  · intro p hc hf
    rw [load_bps_fst]
    simp [bps_pipeline, lookupKey, hc, bps_read_data, hf, exceptToOption]
  · intro p hc hf
    rw [load_installment_fst]
    simp [installment_pipeline, lookupKey, hc, read_excel, hf, exceptToOption]
  · intro p hc hf
    rw [load_lizing_fst]
    simp [lizing_pipeline, lookupKey, hc, read_excel, hf, exceptToOption]

/-- Witness for C1: on an empty file system every configured path is
nonexistent and all four entry points return `none`. -/
theorem C1_witness :
    (load_alfa_data [] fixtureCfg).1 = none ∧
    (load_bps_data [] fixtureCfg).1 = none ∧
    (load_installment_data [] fixtureCfg).1 = none ∧
    (load_lizing_data [] fixtureCfg).1 = none :=
  ⟨(C1_entry_points_catch_all_failures [] fixtureCfg).1.2 "alfa.xlsx" (by decide) (by decide),
   (C1_entry_points_catch_all_failures [] fixtureCfg).2.1.2 "b.csv" (by decide) (by decide),
   (C1_entry_points_catch_all_failures [] fixtureCfg).2.2.1.2 "inst.xlsx" (by decide) (by decide),
   (C1_entry_points_catch_all_failures [] fixtureCfg).2.2.2.2 "liz.xlsx" (by decide) (by decide)⟩

/-- Claim C2: whenever an entry point succeeds, the returned frame's column
list is exactly the canonical one of its variant — `date, phone_number,
identify` for Alfa and `date, phone_number` for BPS, Installment and Lizing —
in that order, with no other column surviving cleaning. -/
theorem C2_canonical_column_sets (fs : FileSystem) (cfg : Config) :
    (∀ out, (load_alfa_data fs cfg).1 = some out →
      out.cols = ["date", "phone_number", "identify"]) ∧
    (∀ out, (load_bps_data fs cfg).1 = some out → out.cols = ["date", "phone_number"]) ∧
    (∀ out, (load_installment_data fs cfg).1 = some out →
      out.cols = ["date", "phone_number"]) ∧
    (∀ out, (load_lizing_data fs cfg).1 = some out → out.cols = ["date", "phone_number"]) := by
  refine ⟨?_, ?_, ?_, ?_⟩
  · intro out h
    obtain ⟨path, df, _, _, hc⟩ := load_alfa_some h
    unfold alfa_clean_data at hc
    exact project_ok_cols hc
  · intro out h
    obtain ⟨path, df, _, _, hc⟩ := load_bps_some h
    unfold bps_clean_data at hc
    exact project_ok_cols hc
  · intro out h
    obtain ⟨path, df0, df, _, _, _, hc⟩ := load_installment_some h
    unfold installment_clean_data at hc
    exact project_ok_cols hc
  · intro out h
    obtain ⟨path, df, _, _, hc⟩ := load_lizing_some h
    unfold lizing_clean_data at hc
    exact project_ok_cols hc

/-- Witness for C2: the four fixture loads succeed and carry exactly the
canonical columns. -/
theorem C2_witness :
    alfaExpected.cols = ["date", "phone_number", "identify"] ∧
    bpsExpected.cols = ["date", "phone_number"] ∧
    instExpected.cols = ["date", "phone_number"] ∧
    lizingExpected.cols = ["date", "phone_number"] :=
  ⟨(C2_canonical_column_sets fixtureFs fixtureCfg).1 alfaExpected (by decide),
   (C2_canonical_column_sets fixtureFs fixtureCfg).2.1 bpsExpected (by decide),
   (C2_canonical_column_sets fixtureFs fixtureCfg).2.2.1 instExpected (by decide),
   (C2_canonical_column_sets fixtureFs fixtureCfg).2.2.2 lizingExpected (by decide)⟩

/-- Claim C3: for every variant, cleaning neither adds, drops, nor
deduplicates rows and preserves their order: the output row list is the input
row list mapped through a fixed per-row cell selection, so in particular the
row counts agree. -/
theorem C3_clean_preserves_rows :
    (∀ df out, alfa_clean_data df = .ok out →
      out.rows.length = df.rows.length ∧
        ∃ idxs, out.rows = df.rows.map (rowSelect idxs)) ∧
    (∀ df out, bps_clean_data df = .ok out →
      out.rows.length = df.rows.length ∧
        ∃ idxs, out.rows = df.rows.map (rowSelect idxs)) ∧
    (∀ df out, installment_clean_data df = .ok out →
      out.rows.length = df.rows.length ∧
        ∃ idxs, out.rows = df.rows.map (rowSelect idxs)) ∧
    (∀ df out, lizing_clean_data df = .ok out →
      out.rows.length = df.rows.length ∧
        ∃ idxs, out.rows = df.rows.map (rowSelect idxs)) := by
  refine ⟨?_, ?_, ?_, ?_⟩ <;> intro df out h
  · unfold alfa_clean_data at h
    obtain ⟨idxs, hlen, hrows⟩ := project_ok_rows h
    exact ⟨by rw [hrows]; simp [rename], idxs, hrows⟩
  · unfold bps_clean_data at h
    obtain ⟨idxs, hlen, hrows⟩ := project_ok_rows h
    exact ⟨by rw [hrows]; simp [rename], idxs, hrows⟩
  · unfold installment_clean_data at h
    obtain ⟨idxs, hlen, hrows⟩ := project_ok_rows h
    exact ⟨by rw [hrows]; simp [rename], idxs, hrows⟩
  · unfold lizing_clean_data at h
    obtain ⟨idxs, hlen, hrows⟩ := project_ok_rows h
    exact ⟨by rw [hrows]; simp [rename], idxs, hrows⟩

/-- Witness for C3: on the fixtures every clean step keeps exactly the source
row count and maps rows in place. -/
theorem C3_witness :
    (alfaExpected.rows.length = alfaSheet.rows.length ∧
      ∃ idxs, alfaExpected.rows = alfaSheet.rows.map (rowSelect idxs)) ∧
    (bpsExpected.rows.length = bpsRaw.rows.length ∧
      ∃ idxs, bpsExpected.rows = bpsRaw.rows.map (rowSelect idxs)) ∧
    (instExpected.rows.length = instSheet.rows.length ∧
      ∃ idxs, instExpected.rows = instSheet.rows.map (rowSelect idxs)) ∧
    (lizingExpected.rows.length = lizingSheet.rows.length ∧
      ∃ idxs, lizingExpected.rows = lizingSheet.rows.map (rowSelect idxs)) :=
  ⟨C3_clean_preserves_rows.1 alfaSheet alfaExpected (by decide),
   C3_clean_preserves_rows.2.1 bpsRaw bpsExpected (by decide),
   C3_clean_preserves_rows.2.2.1 instSheet instExpected (by decide),
   C3_clean_preserves_rows.2.2.2 lizingSheet lizingExpected (by decide)⟩

/-- Claim C6: every entry point is a deterministic function of the file system
and the configuration — two calls on the same unmodified input produce
structurally equal results (data and log alike). -/
theorem C6_deterministic (fs : FileSystem) (cfg : Config)
    (r1 r2 : Option DataFrame × List String) :
    (load_alfa_data fs cfg = r1 → load_alfa_data fs cfg = r2 → r1 = r2) ∧
    (load_bps_data fs cfg = r1 → load_bps_data fs cfg = r2 → r1 = r2) ∧
    (load_installment_data fs cfg = r1 → load_installment_data fs cfg = r2 → r1 = r2) ∧
    (load_lizing_data fs cfg = r1 → load_lizing_data fs cfg = r2 → r1 = r2) :=
  ⟨fun h1 h2 => h1 ▸ h2, fun h1 h2 => h1 ▸ h2, fun h1 h2 => h1 ▸ h2, fun h1 h2 => h1 ▸ h2⟩

/-- Witness for C6: the two fixture calls of each variant agree on one
explicit result value. -/
theorem C6_witness :
    load_alfa_data fixtureFs fixtureCfg =
      (some alfaExpected,
       ["Loading Alfa data...", "Alfa data loaded successfully.",
        "Cleaning Alfa data...", "Alfa data cleaned successfully."]) ∧
    load_bps_data fixtureFs fixtureCfg =
      (some bpsExpected,
       ["Loading BPS data...", "Data loaded successfully.",
        "Cleaning BPS data...", "Data cleaned successfully."]) ∧
    load_installment_data fixtureFs fixtureCfg =
      (some instExpected,
       ["Loading Installment data...", "Data loaded successfully.",
        "Cleaning Lizing data...", "Data cleaned successfully."]) ∧
    load_lizing_data fixtureFs fixtureCfg =
      (some lizingExpected,
       ["Loading Lizing data...", "Data loaded successfully.",
        "Cleaning Lizing data...", "Data cleaned successfully."]) :=
  ⟨(C6_deterministic fixtureFs fixtureCfg _ _).1 rfl (by decide),
   (C6_deterministic fixtureFs fixtureCfg _ _).2.1 rfl (by decide),
   (C6_deterministic fixtureFs fixtureCfg _ _).2.2.1 rfl (by decide),
   (C6_deterministic fixtureFs fixtureCfg _ _).2.2.2 rfl (by decide)⟩

/-- Claim C10: a configuration that lacks a variant's expected key makes the
key lookup fail inside the guarded region, so the entry point catches the
`KeyError` and returns `none` instead of raising. -/
theorem C10_missing_config_key (fs : FileSystem) (cfg : Config) :
    (cfg.lookup "alfa" = none → (load_alfa_data fs cfg).1 = none) ∧
    (cfg.lookup "bps" = none → (load_bps_data fs cfg).1 = none) ∧
    (cfg.lookup "installment" = none → (load_installment_data fs cfg).1 = none) ∧
    (cfg.lookup "lizing" = none → (load_lizing_data fs cfg).1 = none) := by
  refine ⟨?_, ?_, ?_, ?_⟩ <;> intro h
  · rw [load_alfa_fst]
    simp [alfa_pipeline, lookupKey, h, exceptToOption]
  · rw [load_bps_fst]
    simp [bps_pipeline, lookupKey, h, exceptToOption]
  · rw [load_installment_fst]
    simp [installment_pipeline, lookupKey, h, exceptToOption]
  · rw [load_lizing_fst]
    simp [lizing_pipeline, lookupKey, h, exceptToOption]

/-- Witness for C10: with an empty configuration every variant returns
`none`. -/
theorem C10_witness :
    (load_alfa_data fixtureFs []).1 = none ∧
    (load_bps_data fixtureFs []).1 = none ∧
    (load_installment_data fixtureFs []).1 = none ∧
    (load_lizing_data fixtureFs []).1 = none :=
  ⟨(C10_missing_config_key fixtureFs []).1 rfl,
   (C10_missing_config_key fixtureFs []).2.1 rfl,
   (C10_missing_config_key fixtureFs []).2.2.1 rfl,
   (C10_missing_config_key fixtureFs []).2.2.2 rfl⟩

/-- Claim C4: the BPS read step restricts the semicolon-delimited file to
exactly the input columns `TEL` and `APLCTN_DT` — every column of any
successful read is one of the two, so the `PD` column is never part of the
read column set — coercing `TEL` to a 64-bit integer and parsing `APLCTN_DT`
as a date in the same pass; the fixture with no `PD` column loads
successfully, with `phone_number` the integer `5551234` and `date` equal to
2024-01-01. -/
theorem C4_bps_read_restriction (fs : FileSystem) (path : String) (df : DataFrame) :
    (bps_read_data fs path = .ok df → ∀ c ∈ df.cols, c = "TEL" ∨ c = "APLCTN_DT") ∧
    (bps_read_data fs path = .ok df → "PD" ∉ df.cols) ∧
    bps_read_data fixtureFs "b.csv" = .ok bpsRaw ∧
    (load_bps_data fixtureFs fixtureCfg).1 = some bpsExpected ∧
    bpsRaw.rows = [[Cell.int 5551234, Cell.date 2024 1 1]] ∧
    bpsExpected.rows = [[Cell.date 2024 1 1, Cell.int 5551234]] := by
  refine ⟨?_, ?_, by decide, by decide, rfl, rfl⟩
  · intro h c hc
    obtain ⟨header, hcols⟩ := bps_read_ok_cols h
    rw [hcols] at hc
    exact mem_bpsKeptNames hc
  · intro h hmem
    obtain ⟨header, hcols⟩ := bps_read_ok_cols h
    rw [hcols] at hmem
    rcases mem_bpsKeptNames hmem with h1 | h1
    · exact absurd h1 (by decide)
    · exact absurd h1 (by decide)

/-- Witness for C4: the fixture read's columns are among the two usecols and
`PD` is absent. -/
theorem C4_witness :
    (∀ c ∈ bpsRaw.cols, c = "TEL" ∨ c = "APLCTN_DT") ∧ "PD" ∉ bpsRaw.cols :=
  ⟨(C4_bps_read_restriction fixtureFs "b.csv" bpsRaw).1 (by decide),
   (C4_bps_read_restriction fixtureFs "b.csv" bpsRaw).2.1 (by decide)⟩

/-- Claim C5 counterexample: a raw sheet that already carries the canonical
labels `date, phone_number, identify` lacks all three required source columns
(`Phone`, `Date`, `Identification number`), yet `_clean_data` succeeds on it
and the entry point returns it instead of `None` — the claim as stated is
false on this input. -/
theorem C5_counterexample :
    "Phone" ∉ alfaCanonSheet.cols ∧ "Date" ∉ alfaCanonSheet.cols ∧
    "Identification number" ∉ alfaCanonSheet.cols ∧
    alfa_clean_data alfaCanonSheet = .ok alfaCanonSheet ∧
    (load_alfa_data alfaCanonFs alfaCanonCfg).1 = some alfaCanonSheet :=
  ⟨by decide, by decide, by decide, by decide, by decide⟩

/-- Claim C5 amended: if a required Alfa source column is absent from the raw
record set and the corresponding canonical column name is absent as well, the
rename/projection step fails with a missing-column `KeyError`, and the entry
point returns `None` for any input file serving that record set. -/
theorem C5_amended_missing_column (df : DataFrame)
    (h : ("Phone" ∉ df.cols ∧ "phone_number" ∉ df.cols) ∨
         ("Date" ∉ df.cols ∧ "date" ∉ df.cols) ∨
         ("Identification number" ∉ df.cols ∧ "identify" ∉ df.cols)) :
    (∃ e, alfa_clean_data df = .error e) ∧
    ∀ fs cfg path, cfg.lookup "alfa" = some path →
      read_excel fs path "Sheet1" = .ok df → (load_alfa_data fs cfg).1 = none := by
  have herr : ∃ e, alfa_clean_data df = .error e := by
    rcases h with ⟨hs, hc⟩ | ⟨hs, hc⟩ | ⟨hs, hc⟩
    · refine alfa_clean_error_of_missing
        (show "phone_number" ∈ alfaCanonCols by decide) ?_
      intro hmem
      rcases mem_renameCols_alfa hmem with h0 | ⟨_, h0⟩ | ⟨hcn, _⟩ | ⟨hcn, _⟩
      · exact hc h0
      · exact hs h0
      · exact absurd hcn (by decide)
      · exact absurd hcn (by decide)
    · refine alfa_clean_error_of_missing (show "date" ∈ alfaCanonCols by decide) ?_
      intro hmem
      rcases mem_renameCols_alfa hmem with h0 | ⟨hcn, _⟩ | ⟨_, h0⟩ | ⟨hcn, _⟩
      · exact hc h0
      · exact absurd hcn (by decide)
      · exact hs h0
      · exact absurd hcn (by decide)
    · refine alfa_clean_error_of_missing (show "identify" ∈ alfaCanonCols by decide) ?_
      intro hmem
      rcases mem_renameCols_alfa hmem with h0 | ⟨hcn, _⟩ | ⟨hcn, _⟩ | ⟨_, h0⟩
      · exact hc h0
      · exact absurd hcn (by decide)
      · exact absurd hcn (by decide)
      · exact hs h0
  refine ⟨herr, ?_⟩
  intro fs cfg path hcfg hread
  obtain ⟨e, he⟩ := herr
  rw [load_alfa_fst]
  simp [alfa_pipeline, lookupKey, hcfg, hread, he, exceptToOption]

/-- Witness for the amended C5: a sheet with one unrelated column fails the
clean step, and the entry point serving it returns `none`. -/
theorem C5_amended_witness :
    (∃ e, alfa_clean_data blankSheet = .error e) ∧
    (load_alfa_data blankFs alfaCanonCfg).1 = none := by
  have h := C5_amended_missing_column blankSheet (Or.inl ⟨by decide, by decide⟩)
  exact ⟨h.1, h.2 blankFs alfaCanonCfg "a.xlsx" (by decide) (by decide)⟩

/-- Claim C7: `load_bps_data` returns `cleaned_df.copy()`: at object level the
returned frame is a freshly allocated object, distinct from the intermediate
cleaned object while holding an equal value, and that value is exactly what
the value-level entry point returns. -/
theorem C7_bps_defensive_copy (fs : FileSystem) (cfg : Config) (a : Nat)
    (cleaned ret : Obj) (a2 : Nat)
    (h : load_bps_data_obj fs cfg a = some (cleaned, ret, a2)) :
    ret.id ≠ cleaned.id ∧ ret.val = cleaned.val ∧
      (load_bps_data fs cfg).1 = some ret.val := by
  unfold load_bps_data_obj at h
  split at h
  · cases h
  · rename_i path hk
    split at h
    · cases h
    · rename_i raw hr
      split at h
      · cases h
      · rename_i o a3 hco
        obtain ⟨hid, ha3, hcv⟩ := bps_clean_data_obj_ok hco
        cases h
        refine ⟨?_, rfl, ?_⟩
        · show a3 ≠ cleaned.id
          rw [ha3, hid]
          omega
        · show (load_bps_data fs cfg).1 = some cleaned.val
          rw [load_bps_fst]
          have hcv2 : bps_clean_data raw = .ok cleaned.val := hcv
          simp [bps_pipeline, hk, hr, hcv2, exceptToOption]

/-- Witness for C7: on the fixture, the cleaned object has identity 2 and the
returned copy identity 3, holding the same cleaned value. -/
theorem C7_witness :
    (⟨3, bpsExpected⟩ : Obj).id ≠ (⟨2, bpsExpected⟩ : Obj).id ∧
    (⟨3, bpsExpected⟩ : Obj).val = (⟨2, bpsExpected⟩ : Obj).val ∧
    (load_bps_data fixtureFs fixtureCfg).1 = some (⟨3, bpsExpected⟩ : Obj).val :=
  C7_bps_defensive_copy fixtureFs fixtureCfg 0 ⟨2, bpsExpected⟩ ⟨3, bpsExpected⟩ 4 (by decide)

/-- Claim C8 counterexample: when the BPS entry point fails (here: missing
file), its logged error line is the generic `An error occurred during data
processing: ...`; it contains no occurrence of `BPS`, `Bps` or `bps`, and the
Lizing variant emits the very same line for the same underlying error, so the
message does not identify the variant by name. -/
theorem C8_counterexample :
    (load_bps_data [] c8Cfg).1 = none ∧
    (load_bps_data [] c8Cfg).2 = ["Loading BPS data...", c8ErrLine] ∧
    (load_lizing_data [] c8Cfg).2 = ["Loading Lizing data...", c8ErrLine] ∧
    containsSeq "BPS".data c8ErrLine.data = false ∧
    containsSeq "Bps".data c8ErrLine.data = false ∧
    containsSeq "bps".data c8ErrLine.data = false :=
  ⟨by decide, by decide, by decide, by decide, by decide, by decide⟩

/-- Claim C8 amended: every caught error is logged together with the caught
error's description, but only the Alfa variant's prefix is provider-specific
(`Error while loading or cleaning Alfa data: `, which contains `Alfa`); the
BPS, Installment and Lizing variants all end their log with the one shared
generic line `An error occurred during data processing: ` plus the error. -/
theorem C8_amended_error_prefixes (fs : FileSystem) (cfg : Config) :
    (∀ r log, load_alfa_data fs cfg = (r, log) → r = none →
      ∃ e, log.getLast? = some (alfaErrLine e) ∧
        containsSeq "Alfa".data (alfaErrLine e).data = true) ∧
    (∀ r log, load_bps_data fs cfg = (r, log) → r = none →
      ∃ e, log.getLast? = some (genericErrLine e)) ∧
    (∀ r log, load_installment_data fs cfg = (r, log) → r = none →
      ∃ e, log.getLast? = some (genericErrLine e)) ∧
    (∀ r log, load_lizing_data fs cfg = (r, log) → r = none →
      ∃ e, log.getLast? = some (genericErrLine e)) := by
  refine ⟨?_, ?_, ?_, ?_⟩ <;> intro r log h hn
  · unfold load_alfa_data at h
    split at h
    · rename_i e hk
      cases h
      exact ⟨e, rfl, alfaErrLine_has_Alfa e⟩
    · rename_i path hk
      split at h
      · rename_i e hr
        cases h
        exact ⟨e, rfl, alfaErrLine_has_Alfa e⟩
      · rename_i df hr
        split at h
        · rename_i e hc
          cases h
          exact ⟨e, rfl, alfaErrLine_has_Alfa e⟩
        · rename_i o hc
          cases h
          cases hn
  · unfold load_bps_data at h
    split at h
    · rename_i e hk
      cases h
      exact ⟨e, rfl⟩
    · rename_i path hk
      split at h
      · rename_i e hr
        cases h
        exact ⟨e, rfl⟩
      · rename_i df hr
        split at h
        · rename_i e hc
          cases h
          exact ⟨e, rfl⟩
        · rename_i o hc
          cases h
          cases hn
  · unfold load_installment_data at h
    split at h
    · rename_i e hk
      cases h
      exact ⟨e, rfl⟩
    · rename_i path hk
      split at h
      · rename_i e hr
        cases h
        exact ⟨e, rfl⟩
      · rename_i df0 hr
        split at h
        · rename_i e hp
          cases h
          exact ⟨e, rfl⟩
        · rename_i df hp
          split at h
          · rename_i e hc
            cases h
            exact ⟨e, rfl⟩
          · rename_i o hc
            cases h
            cases hn
  · unfold load_lizing_data at h
    split at h
    · rename_i e hk
      cases h
      exact ⟨e, rfl⟩
    · rename_i path hk
      split at h
      · rename_i e hr
        cases h
        exact ⟨e, rfl⟩
      · rename_i df hr
        split at h
        · rename_i e hc
          cases h
          exact ⟨e, rfl⟩
        · rename_i o hc
          cases h
          cases hn

/-- Witness for the amended C8: concrete failing calls of all four variants,
with the Alfa line carrying `Alfa` and the other three the generic prefix. -/
theorem C8_amended_witness :
    (∃ e, ["Loading Alfa data...", alfaErrLine "KeyError: alfa"].getLast? =
        some (alfaErrLine e) ∧
      containsSeq "Alfa".data (alfaErrLine e).data = true) ∧
    (∃ e, ["Loading BPS data...", c8ErrLine].getLast? = some (genericErrLine e)) ∧
    (∃ e, ["Loading Installment data...",
        genericErrLine "KeyError: installment"].getLast? = some (genericErrLine e)) ∧
    (∃ e, ["Loading Lizing data...", c8ErrLine].getLast? = some (genericErrLine e)) :=
  ⟨(C8_amended_error_prefixes [] c8Cfg).1 none
      ["Loading Alfa data...", alfaErrLine "KeyError: alfa"] (by decide) rfl,
   (C8_amended_error_prefixes [] c8Cfg).2.1 none
      ["Loading BPS data...", c8ErrLine] (by decide) rfl,
   (C8_amended_error_prefixes [] c8Cfg).2.2.1 none
      ["Loading Installment data...", genericErrLine "KeyError: installment"] (by decide) rfl,
   (C8_amended_error_prefixes [] c8Cfg).2.2.2 none
      ["Loading Lizing data...", c8ErrLine] (by decide) rfl⟩

/-- Claim C9: each variant's clean step is idempotent: on any frame it
accepts, re-cleaning its own output returns that output unchanged (the
canonical labels are not rename keys, and re-projection of the canonical
columns is the identity). -/
theorem C9_clean_idempotent :
    (∀ df out, alfa_clean_data df = .ok out → alfa_clean_data out = .ok out) ∧
    (∀ df out, bps_clean_data df = .ok out → bps_clean_data out = .ok out) ∧
    (∀ df out, installment_clean_data df = .ok out → installment_clean_data out = .ok out) ∧
    (∀ df out, lizing_clean_data df = .ok out → lizing_clean_data out = .ok out) := by
  refine ⟨?_, ?_, ?_, ?_⟩ <;> intro df out h
  · unfold alfa_clean_data at h ⊢
    exact project_rename_idem h rfl (fun r hlr => rowSelect_three hlr) rfl
  · unfold bps_clean_data at h ⊢
    exact project_rename_idem h rfl (fun r hlr => rowSelect_two hlr) rfl
  · unfold installment_clean_data at h ⊢
    exact project_rename_idem h rfl (fun r hlr => rowSelect_two hlr) rfl
  · unfold lizing_clean_data at h ⊢
    exact project_rename_idem h rfl (fun r hlr => rowSelect_two hlr) rfl

/-- Witness for C9: re-cleaning each fixture's cleaned output returns it
unchanged. -/
theorem C9_witness :
    alfa_clean_data alfaExpected = .ok alfaExpected ∧
    bps_clean_data bpsExpected = .ok bpsExpected ∧
    installment_clean_data instExpected = .ok instExpected ∧
    lizing_clean_data lizingExpected = .ok lizingExpected :=
  ⟨C9_clean_idempotent.1 alfaSheet alfaExpected (by decide),
   C9_clean_idempotent.2.1 bpsRaw bpsExpected (by decide),
   C9_clean_idempotent.2.2.1 instSheet instExpected (by decide),
   C9_clean_idempotent.2.2.2 lizingSheet lizingExpected (by decide)⟩
